import Mathlib

/-!
# Verification of the real-time clinical alert engine

Shallow embedding of the alerting component of the patient-risk platform:

* `src/app/services/alert_service.py` — `AlertService` (rules, cooldowns,
  rule evaluation, alert creation, subscriber notification);
* `src/app/api/routes/alerts.py` — the acknowledge / resolve routes;
* `src/config/settings.py` — `risk_threshold_high`.

Modelling conventions:

* Python dict values are modelled by the inductive type `Value`;
  an event record (`data` in the source) is an association list `Data`.
* Timestamps are integers, measured in minutes (the unit in which the
  source expresses every cooldown: `timedelta(minutes=rule.cooldown_minutes)`).
* Python exceptions are modelled with `Except String`; a `try/except`
  block that logs and swallows its exception becomes a total function
  that returns the unchanged state on the error branch.
* Python floats are modelled as rationals (the numeric comparisons in the
  rule predicates and the `:.2f` formatting are exact on all the constants
  that occur in the source and in the scenarios).
-/

/-- A Python value as it occurs in the event dictionaries fed to
`AlertService._evaluate_alert_rules`: strings, numbers (ints and floats
collapsed to `ℚ`), booleans, and `None`. -/
inductive Value where
  | str (s : String)
  | num (q : ℚ)
  | bool (b : Bool)
  | null
deriving DecidableEq, Repr

/-- An event record: the Python dict built by the monitor loops
(`_monitor_risk_predictions`, `_monitor_vital_signs`, `_monitor_lab_results`).
Keys are unique by construction in the source. -/
abbrev Data := List (String × Value)

/-- `dict` lookup: first binding of the key, if any. -/
def Data.lookup : Data → String → Option Value
  | [], _ => Option.none
  | (k, v) :: r, key => if k = key then some v else Data.lookup r key

/-- Python `data.get(key, default)`. -/
def Data.get (d : Data) (key : String) (dflt : Value) : Value :=
  (d.lookup key).getD dflt

/-- Python truthiness (`if not patient_id`, `if rule.condition(data)`):
empty string, zero, `False` and `None` are falsy. -/
def Value.truthy : Value → Bool
  | .str s => decide (s ≠ "")
  | .num q => decide (q ≠ 0)
  | .bool b => b
  | .null => false

/-- Numeric view used by Python's comparison operators
(`bool` is an `int` in Python). -/
def Value.toNum : Value → Option ℚ
  | .num q => some q
  | .bool b => some (if b then 1 else 0)
  | _ => Option.none

/-- Python `==`: total, `False` across types (except `bool`/number,
which compare numerically: `True == 1`). -/
def Value.eqb : Value → Value → Bool
  | .str a, .str b => a == b
  | .null, .null => true
  | a, b =>
    match a.toNum, b.toNum with
    | some x, some y => x == y
    | _, _ => false

/-- Python `<` on event values: defined on numbers, raises `TypeError`
otherwise (the raise is caught per rule in `_evaluate_alert_rules`). -/
def Value.cmpLt (a b : Value) : Except String Bool :=
  match a.toNum, b.toNum with
  | some x, some y => .ok (decide (x < y))
  | _, _ => .error "TypeError: unorderable types"

/-- Python `>` on event values. -/
def Value.cmpGt (a b : Value) : Except String Bool :=
  match a.toNum, b.toNum with
  | some x, some y => .ok (decide (y < x))
  | _, _ => .error "TypeError: unorderable types"

/-- Python `>=` on event values. -/
def Value.cmpGe (a b : Value) : Except String Bool :=
  match a.toNum, b.toNum with
  | some x, some y => .ok (decide (y ≤ x))
  | _, _ => .error "TypeError: unorderable types"

/-- `True` of a successful `Except` computation. -/
def exOk : Except String α → Bool
  | .ok _ => true
  | .error _ => false

/-- Fixed-point rendering with two decimals of a nonnegative rational:
models Python `format(x, ".2f")` on the exact values that occur here. -/
def fmt2of (q : ℚ) : String :=
  -- the rounded value in hundredths: floor(q * 100 + 1/2), on num/den directly
  let n : ℕ := ((200 * q.num + (q.den : ℤ)) / (2 * (q.den : ℤ))).toNat
  toString (n / 100) ++ "." ++ (if n % 100 < 10 then "0" else "") ++ toString (n % 100)

/-- Two-decimal formatting, signs included. -/
def fmt2 (q : ℚ) : String :=
  if q < 0 then "-" ++ fmt2of (-q) else fmt2of q

/-- Python `str()` of an event value, as used by f-strings and by `{name}`
format fields.  Number rendering approximates Python's float `repr`; the
claims only ever inspect message text where the value is either a string
or formatted through `:.2f`. -/
def Value.pyStr : Value → String
  | .str s => s
  | .num q => if q.den = 1 then toString q.num else fmt2 q
  | .bool b => if b then "True" else "False"
  | .null => "None"

/-! ## `str.format` — the fragment exercised by `message_template.format(**data)`

The source formats templates containing literal text, `\x7bname\x7d`
fields and one `\x7bname:.2f\x7d` field.  A field whose name is not a key
of the event dict raises `KeyError` (a "missing placeholder"). -/

/-- Reads the content of a format field up to the closing brace.
Returns the field characters and the remaining input. -/
def readField : List Char → Option (List Char × List Char)
  | [] => Option.none
  | c :: r =>
    if c = '\x7d' then some ([], r)
    else
      match readField r with
      | Option.none => Option.none
      | some (f, rest) => some (c :: f, rest)

/-- Splits a field body at the first colon: `name` and optional format spec. -/
def splitColon : List Char → List Char × Option (List Char)
  | [] => ([], Option.none)
  | c :: r =>
    if c = ':' then ([], some r)
    else
      let p := splitColon r
      (c :: p.1, p.2)

/-- Renders one replacement field against the event dict.  A name missing
from the dict is a `KeyError`; a `.2f` spec on a non-number is a
`ValueError` (both are how `str.format` fails in the source). -/
def renderField (data : Data) (f : List Char) : Except String String :=
  let p := splitColon f
  let name := String.mk p.1
  match Data.lookup data name with
  | Option.none => .error ("KeyError: " ++ name)
  | some v =>
    match p.2 with
    | Option.none => .ok v.pyStr
    | some specCs =>
      if String.mk specCs = ".2f" then
        match v with
        | .num q => .ok (fmt2 q)
        | _ => .error "ValueError: unknown format code f"
      else .error "ValueError: unsupported format spec"

/-- Renders a format string character by character.  `\x7b\x7b` and
`\x7d\x7d` are literal-brace escapes; an unmatched single brace is an
error — exactly `str.format`'s behaviour on the template fragment the
source uses.  The fuel argument only bounds the structural recursion
(each call strictly shortens the input, so `input length + 1` units can
never run out); it keeps the function kernel-reducible. -/
def renderCharsF (data : Data) : ℕ → List Char → Except String (List Char)
  | 0, _ => .error "internal: fuel exhausted"
  | _ + 1, [] => .ok []
  | fuel + 1, '\x7b' :: '\x7b' :: r => (renderCharsF data fuel r).map (fun t => '\x7b' :: t)
  | fuel + 1, '\x7d' :: '\x7d' :: r => (renderCharsF data fuel r).map (fun t => '\x7d' :: t)
  | fuel + 1, '\x7b' :: r =>
    match readField r with
    | Option.none => .error "ValueError: Single brace encountered"
    | some (f, rest) =>
      match renderField data f with
      | .error e => .error e
      | .ok s => (renderCharsF data fuel rest).map (fun t => s.data ++ t)
  | _ + 1, '\x7d' :: _ => .error "ValueError: Single brace encountered"
  | fuel + 1, c :: r => (renderCharsF data fuel r).map (fun t => c :: t)

/-- Character-level rendering with always-sufficient fuel. -/
def renderChars (data : Data) (cs : List Char) : Except String (List Char) :=
  renderCharsF data (cs.length + 1) cs

/-- `rule.message_template.format(**data)` (line 269 of the source). -/
def renderTemplate (tpl : String) (data : Data) : Except String String :=
  (renderChars data tpl.data).map String.mk

instance {ε α : Type} [DecidableEq ε] [DecidableEq α] : DecidableEq (Except ε α) := by
  intro a b
  cases a <;> cases b
  case error.error x y =>
    exact if h : x = y then isTrue (by rw [h]) else isFalse (fun hh => h (by cases hh; rfl))
  case ok.ok x y =>
    exact if h : x = y then isTrue (by rw [h]) else isFalse (fun hh => h (by cases hh; rfl))
  case error.ok x y => exact isFalse (fun hh => Except.noConfusion hh)
  case ok.error x y => exact isFalse (fun hh => Except.noConfusion hh)

/-! ## Rules — `AlertRule` and `_initialize_alert_rules` -/

/-- `AlertType` enum (`alert_service.py`, lines 14–19). -/
inductive AlertType where
  | risk_threshold
  | lab_abnormal
  | vital_critical
  | medication_due
  | appointment_reminder
deriving DecidableEq, Repr

/-- `.value` of the `AlertType` string enum. -/
def AlertType.value : AlertType → String
  | .risk_threshold => "risk_threshold"
  | .lab_abnormal => "lab_abnormal"
  | .vital_critical => "vital_critical"
  | .medication_due => "medication_due"
  | .appointment_reminder => "appointment_reminder"

/-- `RiskLevel` enum (`schemas.py`, lines 14–20). -/
inductive RiskLevel where
  | low
  | medium
  | high
  | critical
deriving DecidableEq, Repr

/-- `.value` of the `RiskLevel` string enum. -/
def RiskLevel.value : RiskLevel → String
  | .low => "low"
  | .medium => "medium"
  | .high => "high"
  | .critical => "critical"

/-- `AlertRule` dataclass (`alert_service.py`, lines 22–31).  `condition`
may raise, hence the `Except` result; `cooldown_minutes` defaults to 60. -/
structure AlertRule where
  rule_id : String
  alert_type : AlertType
  condition : Data → Except String Bool
  severity : RiskLevel
  message_template : String
  cooldown_minutes : ℕ := 60

/-- `settings.risk_threshold_high` (`settings.py`, line 39). -/
def risk_threshold_high : ℚ := mkRat 8 10

/-- Predicate of the `high_risk_readmission` rule (lines 55–58):
`data.get("risk_type") == "readmission" and
 data.get("risk_score", 0) >= settings.risk_threshold_high`.
`and` short-circuits; `==` is total; `>=` may raise `TypeError`. -/
def high_risk_readmission_condition (data : Data) : Except String Bool :=
  if Value.eqb (Data.get data "risk_type" Value.null) (Value.str "readmission") then
    Value.cmpGe (Data.get data "risk_score" (Value.num 0)) (Value.num risk_threshold_high)
  else .ok false

/-- Predicate of the `critical_vitals` rule (lines 70–75):
`data.get("systolic_bp", 0) > 180 or data.get("systolic_bp", 0) < 90 or
 data.get("heart_rate", 0) > 120 or data.get("oxygen_saturation", 100) < 90`.
`or` short-circuits left to right. -/
def critical_vitals_condition (data : Data) : Except String Bool := do
  let hi ← Value.cmpGt (Data.get data "systolic_bp" (Value.num 0)) (Value.num 180)
  if hi then return true
  let lo ← Value.cmpLt (Data.get data "systolic_bp" (Value.num 0)) (Value.num 90)
  if lo then return true
  let hr ← Value.cmpGt (Data.get data "heart_rate" (Value.num 0)) (Value.num 120)
  if hr then return true
  Value.cmpLt (Data.get data "oxygen_saturation" (Value.num 100)) (Value.num 90)

/-- Predicate of the `abnormal_labs` rule (line 87):
`data.get("is_abnormal", False)` — the raw value, truthiness-tested by the
caller's `if rule.condition(data)`. -/
def abnormal_labs_condition (data : Data) : Except String Bool :=
  .ok (Value.truthy (Data.get data "is_abnormal" (Value.bool false)))

/-- The `high_risk_readmission` rule (lines 51–63). -/
def high_risk_readmission_rule : AlertRule where
  rule_id := "high_risk_readmission"
  alert_type := .risk_threshold
  condition := high_risk_readmission_condition
  severity := .high
  message_template :=
    "High readmission risk detected for patient \x7bpatient_id\x7d (score: \x7brisk_score:.2f\x7d)"
  cooldown_minutes := 120

/-- The `critical_vitals` rule (lines 66–80). -/
def critical_vitals_rule : AlertRule where
  rule_id := "critical_vitals"
  alert_type := .vital_critical
  condition := critical_vitals_condition
  severity := .critical
  message_template := "Critical vital signs detected for patient \x7bpatient_id\x7d"
  cooldown_minutes := 30

/-- The `abnormal_labs` rule (lines 83–92). -/
def abnormal_labs_rule : AlertRule where
  rule_id := "abnormal_labs"
  alert_type := .lab_abnormal
  condition := abnormal_labs_condition
  severity := .medium
  message_template :=
    "Abnormal lab result: \x7btest_name\x7d = \x7bvalue\x7d \x7bunit\x7d for patient \x7bpatient_id\x7d"
  cooldown_minutes := 60

/-- `self.alert_rules` after `_initialize_alert_rules` (lines 47–94),
in append order. -/
def default_alert_rules : List AlertRule :=
  [high_risk_readmission_rule, critical_vitals_rule, abnormal_labs_rule]

/-! ## Subscribers — `subscribe_to_alerts` / `_notify_subscribers` -/

/-- An alert subscriber callback.  `raises` models a callback that throws
when invoked. -/
structure Subscriber where
  id : ℕ
  raises : Bool
deriving DecidableEq, Repr

/-- The dict passed to each subscriber callback (lines 291–300). -/
structure NotifyPayload where
  patient_id : Value
  alert_type : String
  severity : String
  message : String
  timestamp : ℤ
  metadata : Data
deriving DecidableEq, Repr

/-- `_notify_subscribers` (lines 343–352): invokes every callback in
order with the payload; each invocation sits in its own `try/except`, so
a raising callback is logged and the loop continues.  The result lists
the deliveries `(subscriber id, payload)` in order; the `Except` layer
records whether the procedure itself raises (it never does). -/
def notify_subscribers : List Subscriber → NotifyPayload → Except String (List (ℕ × NotifyPayload))
  | [], _ => .ok []
  | s :: rest, p =>
    -- the callback is invoked with the payload (the delivery), and may raise
    let callbackResult : Except String Unit :=
      if s.raises then .error "subscriber callback raised" else .ok ()
    -- `except Exception as e: logger.error(...)` — both branches continue
    match callbackResult with
    | .ok _ => (notify_subscribers rest p).map (fun ds => (s.id, p) :: ds)
    | .error _ => (notify_subscribers rest p).map (fun ds => (s.id, p) :: ds)

/-- The delivery list of `_notify_subscribers` as observed by its caller
(`_create_alert` awaits it and discards the unit result). -/
def notify_deliveries (subs : List Subscriber) (p : NotifyPayload) : List (ℕ × NotifyPayload) :=
  match notify_subscribers subs p with
  | .ok ds => ds
  | .error _ => []

/-! ## Service state and the evaluator -/

/-- A row of the `alerts` table as inserted by `_create_alert`
(lines 272–288); `status` takes the schema default `'active'`
(`connection.py`, line 76). -/
structure AlertRow where
  patient_id : Value
  alert_type : String
  severity : String
  message : String
  triggered_by : String
  status : String
  metadata : Data
  created_at : ℤ
deriving DecidableEq, Repr

/-- The mutable state of `AlertService` touched by rule evaluation:
`self.active_alerts` (the cooldown dict, key `"rule_id:patient_id"`),
the `alerts` table, and the log of subscriber deliveries. -/
structure ServiceState where
  active_alerts : List (String × ℤ)
  alerts : List AlertRow
  notified : List (ℕ × NotifyPayload)
deriving DecidableEq, Repr

/-- The state of a fresh `AlertService` (`__init__`, lines 37–45). -/
def st0 : ServiceState := ⟨[], [], []⟩

/-- Cooldown-dict lookup (`self.active_alerts[cooldown_key]`). -/
def dictGet : List (String × ℤ) → String → Option ℤ
  | [], _ => Option.none
  | (k, v) :: r, key => if k = key then some v else dictGet r key

/-- Cooldown-dict update (`self.active_alerts[cooldown_key] = ...`). -/
def dictSet : List (String × ℤ) → String → ℤ → List (String × ℤ)
  | [], key, t => [(key, t)]
  | (k, v) :: r, key, t =>
    if k = key then (key, t) :: r else (k, v) :: dictSet r key t

/-- `_create_alert` (lines 265–305).  The whole body sits in one
`try/except` that only logs: a missing `patient_id` key, a template
rendering error, or a failed insert (`insertOk = false`) leaves the state
untouched and raises nothing.  On success the row is appended and every
subscriber is notified. -/
def create_alert (insertOk : Bool) (subs : List Subscriber) (now : ℤ)
    (rule : AlertRule) (data : Data) (st : ServiceState) : ServiceState :=
  match Data.lookup data "patient_id" with
  | Option.none => st
  | some pid =>
    match renderTemplate rule.message_template data with
    | .error _ => st
    | .ok message =>
      if insertOk then
        let row : AlertRow :=
          { patient_id := pid
            alert_type := rule.alert_type.value
            severity := rule.severity.value
            message := message
            triggered_by := "alert_service:" ++ rule.rule_id
            status := "active"
            metadata := data
            created_at := now }
        let payload : NotifyPayload :=
          { patient_id := pid
            alert_type := rule.alert_type.value
            severity := rule.severity.value
            message := message
            timestamp := now
            metadata := data }
        { st with
            alerts := st.alerts ++ [row]
            notified := st.notified ++ notify_deliveries subs payload }
      else st

/-- One iteration of the rule loop in `_evaluate_alert_rules`
(lines 246–263): cooldown check, predicate, creation, cooldown mark; the
per-rule `try/except` turns a raising predicate into "no match". -/
def eval_rule (insertOk : Bool) (subs : List Subscriber) (now : ℤ) (data : Data)
    (pid : Value) (st : ServiceState) (rule : AlertRule) : ServiceState :=
  let cooldown_key := rule.rule_id ++ ":" ++ pid.pyStr
  let onCooldown :=
    match dictGet st.active_alerts cooldown_key with
    | some last_alert => decide (now - last_alert < (rule.cooldown_minutes : ℤ))
    | Option.none => false
  if onCooldown then st
  else
    match rule.condition data with
    | .error _ => st
    | .ok c =>
      if c then
        let st2 := create_alert insertOk subs now rule data st
        { st2 with active_alerts := dictSet st2.active_alerts cooldown_key now }
      else st

/-- `_evaluate_alert_rules` (lines 240–263): bails out on a falsy
`patient_id`, then folds the rule loop over `self.alert_rules`. -/
def evaluate_alert_rules (rules : List AlertRule) (insertOk : Bool)
    (subs : List Subscriber) (now : ℤ) (data : Data) (st : ServiceState) : ServiceState :=
  let pid := Data.get data "patient_id" Value.null
  if pid.truthy then rules.foldl (eval_rule insertOk subs now data pid) st
  else st

/-- Sequential processing of a batch of timestamped events, each through
`_evaluate_alert_rules` (as the monitor loops do, lines 139–156 etc.). -/
def run_events (rules : List AlertRule) (insertOk : Bool) (subs : List Subscriber) :
    List (ℤ × Data) → ServiceState → ServiceState
  | [], st => st
  | (t, d) :: rest, st =>
    run_events rules insertOk subs rest (evaluate_alert_rules rules insertOk subs t d st)

/-- The event dict built by `_monitor_lab_results` (lines 223–232). -/
def lab_event (patient_id test_name value unit is_abnormal timestamp : Value) : Data :=
  [("patient_id", patient_id), ("test_name", test_name), ("value", value),
   ("unit", unit), ("is_abnormal", is_abnormal), ("timestamp", timestamp)]

/-! ## The acknowledge / resolve routes — `src/app/api/routes/alerts.py`

Only the columns these two routes read or write are modelled: `id`,
`status`, `acknowledged_at`, `acknowledged_by`, `resolved_at`.  The
remaining alert columns are never touched by them. -/

/-- `AlertStatus` enum (`schemas.py`, lines 31–36). -/
inductive AlertStatus where
  | active
  | acknowledged
  | resolved
deriving DecidableEq, Repr

/-- A stored alert row as seen by the acknowledge / resolve routes. -/
structure DbAlert where
  id : ℕ
  status : AlertStatus
  acknowledged_at : Option ℤ
  acknowledged_by : Option String
  resolved_at : Option ℤ
deriving DecidableEq, Repr

/-- The `alerts` table. -/
abbrev AlertsTable := List DbAlert

/-- An `HTTPException` as raised by the routes. -/
structure HTTPError where
  status_code : ℕ
  detail : String
deriving DecidableEq, Repr

/-- `acknowledge_alert` (`alerts.py`, lines 155–194): a bare existence
check (`SELECT id FROM alerts WHERE id = ?`) guards a 404; the following
`UPDATE` unconditionally sets `status = 'acknowledged'` on the row —
there is no check of the current status. -/
def acknowledge_alert (now : ℤ) (alert_id : ℕ) (acknowledged_by : String)
    (db : AlertsTable) : Except HTTPError (String × AlertsTable) :=
  if db.any (fun a => a.id == alert_id) then
    .ok ("Alert acknowledged successfully",
      db.map (fun a =>
        if a.id == alert_id then
          { a with
              status := .acknowledged
              acknowledged_at := some now
              acknowledged_by := some acknowledged_by }
        else a))
  else .error ⟨404, "Alert not found"⟩

/-- `resolve_alert` (`alerts.py`, lines 197–234): existence check, then
an unconditional `UPDATE ... SET status = 'resolved', resolved_at = ?`. -/
def resolve_alert (now : ℤ) (alert_id : ℕ) (db : AlertsTable) :
    Except HTTPError (String × AlertsTable) :=
  if db.any (fun a => a.id == alert_id) then
    .ok ("Alert resolved successfully",
      db.map (fun a =>
        if a.id == alert_id then { a with status := .resolved, resolved_at := some now }
        else a))
  else .error ⟨404, "Alert not found"⟩

/-! ## Interleaving model of two concurrent evaluations

`_evaluate_alert_rules` runs inside asyncio tasks (one per monitor loop,
plus manual calls).  Within one task, code between two `await`
expressions executes atomically; the scheduler may switch tasks at every
`await`.  For a single qualifying rule the relevant suspension point is
`await self._create_alert(...)` (line 259), which sits *between* the
cooldown check (lines 249–255) and the cooldown mark (line 260).  The
model below cuts one evaluation into those three atomic segments. -/

/-- Program counter of one in-flight `_evaluate_alert_rules` call,
restricted to a single rule.  `check` = lines 248–258 up to the call of
`_create_alert`; `create` = the awaited `_create_alert` body;
`mark` = line 260 (`self.active_alerts[cooldown_key] = ...`). -/
inductive TaskPC where
  | check
  | create
  | mark
  | done
deriving DecidableEq, Repr

/-- One in-flight evaluation: its program counter, the scheduler time at
which it runs, and its event record. -/
structure EvalTask where
  pc : TaskPC
  now : ℤ
  data : Data
deriving Repr

/-- One atomic segment of an in-flight evaluation against rule `R`,
acting on the shared `ServiceState`.  Mirrors `eval_rule` /
`create_alert`, split at the `await` boundaries. -/
def task_step (R : AlertRule) (insertOk : Bool) (subs : List Subscriber)
    (st : ServiceState) (tk : EvalTask) : ServiceState × EvalTask :=
  let pid := Data.get tk.data "patient_id" Value.null
  let cooldown_key := R.rule_id ++ ":" ++ pid.pyStr
  match tk.pc with
  | .check =>
    if pid.truthy then
      let onCooldown :=
        match dictGet st.active_alerts cooldown_key with
        | some last_alert => decide (tk.now - last_alert < (R.cooldown_minutes : ℤ))
        | Option.none => false
      if onCooldown then (st, { tk with pc := .done })
      else
        match R.condition tk.data with
        | .error _ => (st, { tk with pc := .done })
        | .ok c =>
          if c then (st, { tk with pc := .create })  -- suspends at `await self._create_alert`
          else (st, { tk with pc := .done })
    else (st, { tk with pc := .done })
  | .create => (create_alert insertOk subs tk.now R tk.data st, { tk with pc := .mark })
  | .mark =>
    ({ st with active_alerts := dictSet st.active_alerts cooldown_key tk.now },
     { tk with pc := .done })
  | .done => (st, tk)

/-- Runs a schedule over two concurrent evaluations: `false` steps the
first task, `true` steps the second. -/
def run_schedule (R : AlertRule) (insertOk : Bool) (subs : List Subscriber) :
    List Bool → ServiceState × EvalTask × EvalTask → ServiceState × EvalTask × EvalTask
  | [], s => s
  | pick :: rest, (st, t1, t2) =>
    if pick then
      let (st2, t2b) := task_step R insertOk subs st t2
      run_schedule R insertOk subs rest (st2, t1, t2b)
    else
      let (st2, t1b) := task_step R insertOk subs st t1
      run_schedule R insertOk subs rest (st2, t1b, t2)

/-! ## Pure view of the per-(rule, subject) cooldown gate

For a single rule and subject, the observable effect of the cooldown
logic of `_evaluate_alert_rules` on a sequence of qualifying events is
captured by a fold over the event timestamps. -/

/-- The cooldown gate: a qualifying event at time `t` fires iff there is
no recorded last firing `l` with `t - l < cool` (lines 250–255 negated). -/
def gate (cool : ℕ) (last : Option ℤ) (t : ℤ) : Bool :=
  match last with
  | Option.none => true
  | some l => !decide (t - l < (cool : ℤ))

/-- The recorded last-firing time after a sequence of qualifying events. -/
def gateFold (cool : ℕ) : Option ℤ → List ℤ → Option ℤ
  | last, [] => last
  | last, t :: ts => gateFold cool (if gate cool last t then some t else last) ts

/-- How many of a sequence of qualifying events fire. -/
def gateCount (cool : ℕ) : Option ℤ → List ℤ → ℕ
  | _, [] => 0
  | last, t :: ts =>
    (if gate cool last t then 1 else 0) +
      gateCount cool (if gate cool last t then some t else last) ts

/-- The cooldown dict restricted to one key. -/
def optEntry (key : String) : Option ℤ → List (String × ℤ)
  | Option.none => []
  | some l => [(key, l)]

/-- The recorded last-firing time after the first `i` qualifying events. -/
def lastFired (cool : ℕ) (ts : List ℤ) (i : ℕ) : Option ℤ :=
  gateFold cool Option.none (ts.take i)

/-- Whether the `i`-th qualifying event fires. -/
def firedAt (cool : ℕ) (ts : List ℤ) (i : ℕ) : Bool :=
  gate cool (lastFired cool ts i) (ts.getD i 0)

/-- Whether `needle` is a leading segment of `hay`. -/
def leadsChars : List Char → List Char → Bool
  | [], _ => true
  | _ :: _, [] => false
  | a :: as, b :: bs => a == b && leadsChars as bs

/-- Whether `needle` occurs contiguously inside `hay`. -/
def hasSubChars (needle : List Char) : List Char → Bool
  | [] => needle.isEmpty
  | c :: r => leadsChars needle (c :: r) || hasSubChars needle r

/-- The event of end-to-end scenario 1: a readmission risk score of 0.85
for patient "P1", in the field names used by `_monitor_risk_predictions`. -/
def sc1data : Data :=
  [("patient_id", Value.str "P1"), ("risk_type", Value.str "readmission"),
   ("risk_score", Value.num (mkRat 85 100))]

/-- A rule whose message template references a field the event does not
carry, making `message_template.format(**data)` raise `KeyError`. -/
def C4rule : AlertRule where
  rule_id := "missing_placeholder_rule"
  alert_type := .risk_threshold
  condition := fun _ => .ok true
  severity := .high
  message_template := "risk \x7bmissing_field\x7d for patient \x7bpatient_id\x7d"
  cooldown_minutes := 60

theorem readField_length : ∀ (r f rest : List Char),
    readField r = some (f, rest) → rest.length < r.length := by
  intro r
  induction r with
  | nil => intro f rest h; simp [readField] at h
  | cons c cr ih =>
    intro f rest h
    rw [readField] at h
    split at h
    · cases h; simp
    · split at h
      · cases h
      · cases h
        have := ih _ _ (by assumption)
        simp
        omega

theorem dictGet_optEntry (key : String) (l : Option ℤ) :
    dictGet (optEntry key l) key = l := by
  cases l <;> simp [optEntry, dictGet]

theorem dictSet_optEntry (key : String) (l : Option ℤ) (t : ℤ) :
    dictSet (optEntry key l) key t = optEntry key (some t) := by
  cases l <;> simp [optEntry, dictSet]

theorem gate_some_iff (cool : ℕ) (l t : ℤ) :
    gate cool (some l) t = true ↔ (cool : ℤ) ≤ t - l := by
  simp [gate]

theorem Data.lookup_of_get_str {d : Data} {k : String} {s : String}
    (h : Data.get d k Value.null = Value.str s) :
    Data.lookup d k = some (Value.str s) := by
  cases hl : Data.lookup d k with
  | none => rw [Data.get, hl] at h; simp at h
  | some v => rw [Data.get, hl] at h; simp at h; rw [h]

/-- `_create_alert` on the success path: the row is appended and the
subscribers are notified. -/
theorem create_alert_ok (subs : List Subscriber) (t : ℤ) (R : AlertRule)
    (d : Data) (st : ServiceState) (pv : Value) (m : String)
    (hpid : Data.lookup d "patient_id" = some pv)
    (hmsg : renderTemplate R.message_template d = .ok m) :
    create_alert true subs t R d st =
      { st with
          alerts := st.alerts ++
            [⟨pv, R.alert_type.value, R.severity.value, m,
              "alert_service:" ++ R.rule_id, "active", d, t⟩]
          notified := st.notified ++
            notify_deliveries subs ⟨pv, R.alert_type.value, R.severity.value, m, t, d⟩ } := by
  rw [create_alert, hpid, hmsg]
  rfl

/-- `_evaluate_alert_rules` on a single-rule rule set, for an event
carrying a truthy string `patient_id`, reduces to one `eval_rule` pass. -/
theorem evaluate_single (R : AlertRule) (insertOk : Bool) (subs : List Subscriber)
    (t : ℤ) (d : Data) (st : ServiceState) (pid : String)
    (hpid : Data.get d "patient_id" Value.null = Value.str pid) (hpid2 : pid ≠ "") :
    evaluate_alert_rules [R] insertOk subs t d st =
      eval_rule insertOk subs t d (Value.str pid) st R := by
  rw [evaluate_alert_rules, hpid]
  simp [Value.truthy, hpid2]

/-- State evolution of a single qualifying event against one rule,
starting from a one-key cooldown dict: the gate decides firing; firing
appends one row and refreshes the key. -/
theorem eval_rule_qualifying (subs : List Subscriber) (t : ℤ) (R : AlertRule)
    (d : Data) (pid : String) (last : Option ℤ) (rows : List AlertRow)
    (nots : List (ℕ × NotifyPayload)) (m : String)
    (hpid : Data.get d "patient_id" Value.null = Value.str pid)
    (hcond : R.condition d = .ok true)
    (hmsg : renderTemplate R.message_template d = .ok m) :
    eval_rule true subs t d (Value.str pid) ⟨optEntry (R.rule_id ++ ":" ++ pid) last, rows, nots⟩ R =
      if gate R.cooldown_minutes last t then
        ⟨optEntry (R.rule_id ++ ":" ++ pid) (some t),
         rows ++ [⟨Value.str pid, R.alert_type.value, R.severity.value, m,
                   "alert_service:" ++ R.rule_id, "active", d, t⟩],
         nots ++ notify_deliveries subs
           ⟨Value.str pid, R.alert_type.value, R.severity.value, m, t, d⟩⟩
      else ⟨optEntry (R.rule_id ++ ":" ++ pid) last, rows, nots⟩ := by
  have hl := Data.lookup_of_get_str hpid
  rw [eval_rule]
  simp only [Value.pyStr, dictGet_optEntry]
  cases last with
  | none =>
    simp only [gate, hcond]
    rw [create_alert_ok subs t R d _ _ m hl hmsg]
    simp [dictSet_optEntry]
  | some l =>
    simp only [gate, hcond]
    by_cases hc : t - l < (R.cooldown_minutes : ℤ)
    · simp [hc]
    · rw [create_alert_ok subs t R d _ _ m hl hmsg]
      simp [dictSet_optEntry, hc]

theorem run_events_append (rules : List AlertRule) (insertOk : Bool)
    (subs : List Subscriber) (a b : List (ℤ × Data)) (st : ServiceState) :
    run_events rules insertOk subs (a ++ b) st =
      run_events rules insertOk subs b (run_events rules insertOk subs a st) := by
  induction a generalizing st with
  | nil => rfl
  | cons e r ih => cases e; simp [run_events, ih]

/-- Bridge: a run of qualifying events for one rule and one subject,
from a state whose cooldown dict is the one-key dict, lands in the state
predicted by the pure gate fold, with one appended row per fired event. -/
theorem run_single_rule_bridge (R : AlertRule) (pid : String) (subs : List Subscriber)
    (hpid2 : pid ≠ "") :
    ∀ (evs : List (ℤ × Data)) (last : Option ℤ) (rows : List AlertRow)
      (nots : List (ℕ × NotifyPayload)),
      (∀ e ∈ evs, Data.get e.2 "patient_id" Value.null = Value.str pid) →
      (∀ e ∈ evs, R.condition e.2 = .ok true) →
      (∀ e ∈ evs, exOk (renderTemplate R.message_template e.2) = true) →
      (run_events [R] true subs evs
          ⟨optEntry (R.rule_id ++ ":" ++ pid) last, rows, nots⟩).active_alerts =
        optEntry (R.rule_id ++ ":" ++ pid) (gateFold R.cooldown_minutes last (evs.map Prod.fst)) ∧
      (run_events [R] true subs evs
          ⟨optEntry (R.rule_id ++ ":" ++ pid) last, rows, nots⟩).alerts.length =
        rows.length + gateCount R.cooldown_minutes last (evs.map Prod.fst) := by
  intro evs
  induction evs with
  | nil => intro last rows nots _ _ _; simp [run_events, gateFold, gateCount]
  | cons e rest ih =>
    intro last rows nots hdata hcond hrend
    obtain ⟨t, d⟩ := e
    obtain ⟨m, hm⟩ : ∃ m, renderTemplate R.message_template d = .ok m := by
      have := hrend (t, d) (by simp)
      cases hr : renderTemplate R.message_template d with
      | ok m => exact ⟨m, rfl⟩
      | error e => rw [hr] at this; simp [exOk] at this
    have hd := hdata (t, d) (by simp)
    have hc := hcond (t, d) (by simp)
    rw [run_events, evaluate_single R true subs t d _ pid hd hpid2,
      eval_rule_qualifying subs t R d pid last rows nots m hd hc hm]
    by_cases hg : gate R.cooldown_minutes last t = true
    · rw [if_pos hg]
      have := ih (some t)
        (rows ++ [⟨Value.str pid, R.alert_type.value, R.severity.value, m,
                   "alert_service:" ++ R.rule_id, "active", d, t⟩])
        (nots ++ notify_deliveries subs
          ⟨Value.str pid, R.alert_type.value, R.severity.value, m, t, d⟩)
        (fun e he => hdata e (by simp [he])) (fun e he => hcond e (by simp [he]))
        (fun e he => hrend e (by simp [he]))
      refine ⟨?_, ?_⟩
      · rw [this.1]; simp [gateFold, hg]
      · rw [this.2]; simp [gateCount, hg]; omega
    · rw [if_neg hg]
      have := ih last rows nots
        (fun e he => hdata e (by simp [he])) (fun e he => hcond e (by simp [he]))
        (fun e he => hrend e (by simp [he]))
      refine ⟨?_, ?_⟩
      · rw [this.1]; simp [gateFold, hg]
      · rw [this.2]; simp [gateCount, hg]

theorem gateFold_append (cool : ℕ) (a b : List ℤ) (last : Option ℤ) :
    gateFold cool last (a ++ b) = gateFold cool (gateFold cool last a) b := by
  induction a generalizing last with
  | nil => rfl
  | cons t r ih => simp [gateFold, ih]

theorem gateCount_append (cool : ℕ) (a b : List ℤ) (last : Option ℤ) :
    gateCount cool last (a ++ b) =
      gateCount cool last a + gateCount cool (gateFold cool last a) b := by
  induction a generalizing last with
  | nil => simp [gateCount, gateFold]
  | cons t r ih => simp [gateCount, gateFold, ih]; omega

theorem take_succ_getD {l : List ℤ} {i : ℕ} (h : i < l.length) :
    l.take (i + 1) = l.take i ++ [l.getD i 0] := by
  rw [List.take_succ]
  simp [List.getElem?_eq_getElem h, List.getD_eq_getElem?_getD]

theorem lastFired_succ (cool : ℕ) (ts : List ℤ) {i : ℕ} (hi : i < ts.length) :
    lastFired cool ts (i + 1) =
      if firedAt cool ts i then some (ts.getD i 0) else lastFired cool ts i := by
  rw [lastFired, take_succ_getD hi, gateFold_append]
  simp [gateFold, firedAt, lastFired]

theorem gateCount_take_succ (cool : ℕ) (ts : List ℤ) {i : ℕ} (hi : i < ts.length) :
    gateCount cool Option.none (ts.take (i + 1)) =
      gateCount cool Option.none (ts.take i) + (if firedAt cool ts i then 1 else 0) := by
  rw [take_succ_getD hi, gateCount_append]
  simp [gateCount, firedAt, lastFired]

theorem sorted_getD {ts : List ℤ} (hs : List.Sorted (· ≤ ·) ts)
    {j i : ℕ} (hj : j ≤ i) (hi : i < ts.length) :
    ts.getD j 0 ≤ ts.getD i 0 := by
  rcases Nat.eq_or_lt_of_le hj with rfl | hj2
  · exact le_refl _
  · have hjl : j < ts.length := lt_trans hj2 hi
    have := List.pairwise_iff_get.mp hs ⟨j, hjl⟩ ⟨i, hi⟩ hj2
    simp only [List.get_eq_getElem] at this
    simpa [List.getD_eq_getElem?_getD, List.getElem?_eq_getElem hjl,
      List.getElem?_eq_getElem hi] using this

/-- Structure of the recorded last-firing time: `none` iff nothing fired
yet; `some l` means `l` is the time of a fired event and bounds the time
of every fired event so far (times are nondecreasing). -/
theorem lastFired_spec (cool : ℕ) (ts : List ℤ) (hs : List.Sorted (· ≤ ·) ts) :
    ∀ i, i ≤ ts.length →
      (lastFired cool ts i = Option.none → ∀ j, j < i → firedAt cool ts j = false) ∧
      (∀ l, lastFired cool ts i = some l →
        (∃ j, j < i ∧ firedAt cool ts j = true ∧ ts.getD j 0 = l) ∧
        (∀ k, k < i → firedAt cool ts k = true → ts.getD k 0 ≤ l)) := by
  intro i
  induction i with
  | zero =>
    intro _
    refine ⟨fun _ j hj => absurd hj (by omega), fun l hl => ?_⟩
    rw [lastFired] at hl
    simp [gateFold] at hl
  | succ i ih =>
    intro hi
    have hi2 : i < ts.length := by omega
    have rec := lastFired_succ cool ts hi2
    by_cases hf : firedAt cool ts i = true
    · refine ⟨?_, ?_⟩
      · rw [rec, if_pos hf]; intro hnone; cases hnone
      · intro l hl
        rw [rec, if_pos hf] at hl
        cases hl
        refine ⟨⟨i, by omega, hf, rfl⟩, ?_⟩
        intro k hk _
        exact sorted_getD hs (by omega) hi2
    · have hf2 : firedAt cool ts i = false := by
        cases h : firedAt cool ts i
        · rfl
        · exact absurd h hf
      refine ⟨?_, ?_⟩
      · rw [rec, if_neg hf]
        intro hnone j hj
        rcases Nat.lt_or_ge j i with hji | hji
        · exact (ih (by omega)).1 hnone j hji
        · have : j = i := by omega
          rw [this]; exact hf2
      · intro l hl
        rw [rec, if_neg hf] at hl
        obtain ⟨⟨j, hj, hfj, hje⟩, hbound⟩ := (ih (by omega)).2 l hl
        refine ⟨⟨j, by omega, hfj, hje⟩, ?_⟩
        intro k hk hfk
        rcases Nat.lt_or_ge k i with hki | hki
        · exact hbound k hki hfk
        · have : k = i := by omega
          rw [this] at hfk
          exact absurd hfk hf

/-- Pure characterization of the cooldown gate over nondecreasing
timestamps: the `i`-th qualifying event fires iff no earlier fired event
lies strictly within the cooldown window before it. -/
theorem firedAt_iff (cool : ℕ) (ts : List ℤ) (hs : List.Sorted (· ≤ ·) ts)
    (i : ℕ) (hi : i < ts.length) :
    firedAt cool ts i = true ↔
      ∀ j, j < i → firedAt cool ts j = true →
        (cool : ℤ) ≤ ts.getD i 0 - ts.getD j 0 := by
  have spec := lastFired_spec cool ts hs i (le_of_lt hi)
  constructor
  · intro hf j hj hfj
    cases hl : lastFired cool ts i with
    | none =>
      have := spec.1 hl j hj
      rw [this] at hfj
      cases hfj
    | some l =>
      have hjle := (spec.2 l hl).2 j hj hfj
      rw [firedAt, hl] at hf
      have := (gate_some_iff cool l (ts.getD i 0)).mp hf
      omega
  · intro hall
    cases hl : lastFired cool ts i with
    | none => rw [firedAt, hl]; rfl
    | some l =>
      obtain ⟨⟨j, hj, hfj, hje⟩, _⟩ := spec.2 l hl
      have := hall j hj hfj
      rw [firedAt, hl, gate_some_iff]
      omega

/-- If only the first qualifying event fires, the fired count over any
nonempty prefix is exactly one. -/
theorem gateCount_eq_one (cool : ℕ) (ts : List ℤ)
    (h0 : firedAt cool ts 0 = true)
    (hrest : ∀ i, 0 < i → i < ts.length → firedAt cool ts i = false) :
    ∀ n, 1 ≤ n → n ≤ ts.length → gateCount cool Option.none (ts.take n) = 1 := by
  intro n
  induction n with
  | zero => intro h; omega
  | succ n ih =>
    intro _ hn
    rcases Nat.eq_zero_or_pos n with hz | hpos
    · subst hz
      rw [gateCount_take_succ cool ts (by omega : (0:ℕ) < ts.length)]
      simp [gateCount, h0]
    · rw [gateCount_take_succ cool ts (by omega : n < ts.length)]
      rw [ih (by omega) (by omega), hrest n (by omega) (by omega)]
      simp

/-- C1: Sequential cooldown gating.  For a rule `R` and subject `pid`,
over any nondecreasing sequence of events each satisfying `R`'s
predicate (with rendering and storage succeeding), an Alert is produced
for an event iff no prior firing of `(R, pid)` occurred strictly less
than `cooldown_minutes` before it; consequently, of `N` qualifying
events within one cooldown window of the first, exactly one Alert is
created. -/
theorem C1_sequential_cooldown_gating (R : AlertRule) (pid : String)
    (subs : List Subscriber) (evs : List (ℤ × Data))
    (hpid : pid ≠ "")
    (hdata : ∀ e ∈ evs, Data.get e.2 "patient_id" Value.null = Value.str pid)
    (hcond : ∀ e ∈ evs, R.condition e.2 = Except.ok true)
    (hrend : ∀ e ∈ evs, exOk (renderTemplate R.message_template e.2) = true)
    (hsort : List.Sorted (· ≤ ·) (evs.map Prod.fst)) :
    (∀ i, i < evs.length →
      ((run_events [R] true subs (evs.take (i + 1)) st0).alerts.length =
          (run_events [R] true subs (evs.take i) st0).alerts.length + 1 ↔
        ∀ j, j < i →
          (run_events [R] true subs (evs.take (j + 1)) st0).alerts.length =
            (run_events [R] true subs (evs.take j) st0).alerts.length + 1 →
          (R.cooldown_minutes : ℤ) ≤
            (evs.map Prod.fst).getD i 0 - (evs.map Prod.fst).getD j 0)) ∧
    (evs ≠ [] →
      (∀ e ∈ evs, e.1 - (evs.map Prod.fst).getD 0 0 < (R.cooldown_minutes : ℤ)) →
      (run_events [R] true subs evs st0).alerts.length = 1) := by
  set cool := R.cooldown_minutes with hcool
  set ts := evs.map Prod.fst with hts
  have htslen : ts.length = evs.length := by rw [hts]; exact List.length_map _ _
  have hlen : ∀ i, (run_events [R] true subs (evs.take i) st0).alerts.length =
      gateCount cool Option.none (ts.take i) := by
    intro i
    have hb := run_single_rule_bridge R pid subs hpid (evs.take i) Option.none [] []
      (fun e he => hdata e (List.take_subset _ _ he))
      (fun e he => hcond e (List.take_subset _ _ he))
      (fun e he => hrend e (List.take_subset _ _ he))
    have hst : st0 =
        (⟨optEntry (R.rule_id ++ ":" ++ pid) Option.none, [], []⟩ : ServiceState) := rfl
    rw [hst, hb.2, hts]
    simp [List.map_take]
  have hprod : ∀ i, i < evs.length →
      ((run_events [R] true subs (evs.take (i + 1)) st0).alerts.length =
        (run_events [R] true subs (evs.take i) st0).alerts.length + 1 ↔
       firedAt cool ts i = true) := by
    intro i hi
    rw [hlen, hlen, gateCount_take_succ cool ts (by omega)]
    cases hf : firedAt cool ts i
    · simp [hf]
    · simp [hf]
  refine ⟨?_, ?_⟩
  · intro i hi
    rw [hprod i hi]
    have hiff := firedAt_iff cool ts hsort i (by omega)
    constructor
    · intro hf j hj hpj
      exact (hiff.mp hf) j hj ((hprod j (by omega)).mp hpj)
    · intro h
      refine hiff.mpr ?_
      intro j hj hfj
      exact h j hj ((hprod j (by omega)).mpr hfj)
  · intro hne hwin
    have hlen0 : 0 < evs.length := List.length_pos.mpr hne
    have hf0 : firedAt cool ts 0 = true := rfl
    have hget : ∀ i (hi : i < evs.length), ts.getD i 0 = (evs.get ⟨i, hi⟩).1 := by
      intro i hi
      rw [hts]
      simp [List.getD_eq_getElem?_getD, List.getElem?_map,
        List.getElem?_eq_getElem hi, List.get_eq_getElem]
    have hrest : ∀ i, 0 < i → i < ts.length → firedAt cool ts i = false := by
      intro i h0 hi
      by_contra hf
      have hf2 : firedAt cool ts i = true := by
        revert hf; cases firedAt cool ts i <;> simp
      have hle := (firedAt_iff cool ts hsort i hi).mp hf2 0 h0 hf0
      have hi2 : i < evs.length := by omega
      have hw := hwin _ (List.get_mem evs i hi2)
      rw [← hget i hi2] at hw
      omega
    have hone := gateCount_eq_one cool ts hf0 hrest evs.length (by omega) (by omega)
    have hfull : evs.take evs.length = evs := List.take_length evs
    rw [← hfull, hlen evs.length]
    exact hone

/-- Witness for `C1_sequential_cooldown_gating`: two qualifying
readmission-risk events for patient "P1" one minute apart (well inside
the 120-minute cooldown) yield exactly one alert. -/
theorem C1_witness :
    (run_events [high_risk_readmission_rule] true []
      [(0, [("patient_id", Value.str "P1"), ("risk_type", Value.str "readmission"),
            ("risk_score", Value.num (mkRat 85 100))]),
       (1, [("patient_id", Value.str "P1"), ("risk_type", Value.str "readmission"),
            ("risk_score", Value.num (mkRat 85 100))])] st0).alerts.length = 1 :=
  (C1_sequential_cooldown_gating high_risk_readmission_rule "P1" []
    [(0, [("patient_id", Value.str "P1"), ("risk_type", Value.str "readmission"),
          ("risk_score", Value.num (mkRat 85 100))]),
     (1, [("patient_id", Value.str "P1"), ("risk_type", Value.str "readmission"),
          ("risk_score", Value.num (mkRat 85 100))])]
    (by decide) (by decide) (by decide) (by decide) (by decide)).2
    (by decide) (by decide)

/-- `_create_alert` with a failing insert leaves the state untouched:
the blanket `except` swallows the storage error before the notification
step is reached. -/
theorem create_alert_insert_fail (subs : List Subscriber) (now : ℤ)
    (rule : AlertRule) (data : Data) (st : ServiceState) :
    create_alert false subs now rule data st = st := by
  rw [create_alert]
  cases Data.lookup data "patient_id" with
  | none => rfl
  | some pv =>
    cases renderTemplate rule.message_template data with
    | error e => rfl
    | ok m => rfl

/-- A rule whose predicate returns `False` leaves the state untouched. -/
theorem eval_rule_no_fire (insertOk : Bool) (subs : List Subscriber) (now : ℤ)
    (data : Data) (pv : Value) (st : ServiceState) (rule : AlertRule)
    (hcond : rule.condition data = .ok false) :
    eval_rule insertOk subs now data pv st rule = st := by
  simp only [eval_rule, hcond]
  split
  · rfl
  · rfl

/-- A qualifying rule that is off cooldown fires: row appended,
subscribers notified, cooldown key set — from any shared state. -/
theorem eval_rule_fire (subs : List Subscriber) (t : ℤ) (R : AlertRule) (d : Data)
    (pid : String) (st : ServiceState) (m : String)
    (hpid : Data.get d "patient_id" Value.null = Value.str pid)
    (hcond : R.condition d = .ok true)
    (hmsg : renderTemplate R.message_template d = Except.ok m)
    (hcd : dictGet st.active_alerts (R.rule_id ++ ":" ++ pid) = Option.none) :
    eval_rule true subs t d (Value.str pid) st R =
      { st with
          active_alerts := dictSet st.active_alerts (R.rule_id ++ ":" ++ pid) t
          alerts := st.alerts ++
            [⟨Value.str pid, R.alert_type.value, R.severity.value, m,
              "alert_service:" ++ R.rule_id, "active", d, t⟩]
          notified := st.notified ++
            notify_deliveries subs
              ⟨Value.str pid, R.alert_type.value, R.severity.value, m, t, d⟩ } := by
  have hl := Data.lookup_of_get_str hpid
  simp only [eval_rule, Value.pyStr, hcd, hcond]
  rw [create_alert_ok subs t R d st (Value.str pid) m hl hmsg]
  simp

/-- With a failing insert the whole rule pass can only touch the
cooldown dict: no row is appended, nobody is notified. -/
theorem eval_rule_insert_fail (subs : List Subscriber) (now : ℤ) (data : Data)
    (pv : Value) (st : ServiceState) (rule : AlertRule) :
    (eval_rule false subs now data pv st rule).alerts = st.alerts ∧
    (eval_rule false subs now data pv st rule).notified = st.notified := by
  simp only [eval_rule]
  split
  · exact ⟨rfl, rfl⟩
  · split
    · exact ⟨rfl, rfl⟩
    · split
      · rw [create_alert_insert_fail]
        exact ⟨rfl, rfl⟩
      · exact ⟨rfl, rfl⟩

/-- C6: Atomic drop on creation failure.  When persisting the Alert
fails (`insertOk = false`), a full `_evaluate_alert_rules` pass persists
nothing and broadcasts nothing, for any rule set and event, and returns
normally (the storage error never escapes the per-rule handler). -/
theorem C6_atomic_drop_on_creation_failure (rules : List AlertRule)
    (subs : List Subscriber) (now : ℤ) (data : Data) (st : ServiceState) :
    (evaluate_alert_rules rules false subs now data st).alerts = st.alerts ∧
    (evaluate_alert_rules rules false subs now data st).notified = st.notified := by
  simp only [evaluate_alert_rules]
  split
  · induction rules generalizing st with
    | nil => exact ⟨rfl, rfl⟩
    | cons r rs ih =>
      simp only [List.foldl_cons]
      have h1 := eval_rule_insert_fail subs now data
        (Data.get data "patient_id" Value.null) st r
      have h2 := ih (eval_rule false subs now data
        (Data.get data "patient_id" Value.null) st r)
      exact ⟨h2.1.trans h1.1, h2.2.trans h1.2⟩
  · exact ⟨rfl, rfl⟩

/-- `_notify_subscribers` never raises and delivers the payload to every
registered subscriber, whatever each callback does. -/
theorem notify_subscribers_total (subs : List Subscriber) (p : NotifyPayload) :
    ∃ ds, notify_subscribers subs p = Except.ok ds ∧ ∀ s ∈ subs, (s.id, p) ∈ ds := by
  induction subs with
  | nil => exact ⟨[], rfl, by simp⟩
  | cons s rest ih =>
    obtain ⟨ds, hds, hall⟩ := ih
    refine ⟨(s.id, p) :: ds, ?_, ?_⟩
    · rw [notify_subscribers]
      cases hs : s.raises <;> simp [hs, hds] <;> rfl
    · intro s2 hs2
      rcases List.mem_cons.mp hs2 with rfl | h2
      · exact List.mem_cons_self _ _
      · exact List.mem_cons_of_mem _ (hall s2 h2)

/-- C8: Subscriber isolation.  If one registered subscriber's callback
raises during delivery, every subscriber (in particular every other one)
still receives the Alert payload, and `_notify_subscribers` itself
returns normally instead of raising to its caller. -/
theorem C8_subscriber_isolation (subs : List Subscriber) (p : NotifyPayload)
    (s0 : Subscriber) (hmem : s0 ∈ subs) (hraise : s0.raises = true) :
    ∃ ds, notify_subscribers subs p = Except.ok ds ∧ ∀ s ∈ subs, (s.id, p) ∈ ds :=
  notify_subscribers_total subs p

/-- Witness for `C8_subscriber_isolation`: of two subscribers where the
first raises, both deliveries happen and publish returns successfully. -/
theorem C8_witness :
    ∃ ds, notify_subscribers [⟨1, true⟩, ⟨2, false⟩]
        ⟨Value.str "P1", "risk_threshold", "high", "msg", 0, []⟩ = Except.ok ds ∧
      ∀ s ∈ ([⟨1, true⟩, ⟨2, false⟩] : List Subscriber),
        (s.id, (⟨Value.str "P1", "risk_threshold", "high", "msg", 0, []⟩ : NotifyPayload)) ∈ ds :=
  C8_subscriber_isolation [⟨1, true⟩, ⟨2, false⟩]
    ⟨Value.str "P1", "risk_threshold", "high", "msg", 0, []⟩
    ⟨1, true⟩ (by decide) (by decide)

/-- C4 counterexample: for the event `{patient_id: "P7"}` matched by a
rule whose template references the missing field `missing_field`,
rendering fails and the Alert is dropped outright — it is neither
persisted nor broadcast, contradicting "the Alert is still created ...
with a fallback/degraded message". -/
theorem C4_counterexample :
    exOk (renderTemplate C4rule.message_template [("patient_id", Value.str "P7")]) = false ∧
    (evaluate_alert_rules [C4rule] true [] 0
      [("patient_id", Value.str "P7")] st0).alerts = [] ∧
    (evaluate_alert_rules [C4rule] true [] 0
      [("patient_id", Value.str "P7")] st0).notified = [] := by
  decide

/-- C4 amended: for every matched rule and event, if formatting the
rule's `messageTemplate` against the event's fields fails, the Alert is
dropped entirely — `_create_alert` leaves the state unchanged (nothing
persisted, nothing broadcast) and the error is swallowed. -/
theorem C4_amended_render_failure_drops_alert (rule : AlertRule) (data : Data)
    (subs : List Subscriber) (insertOk : Bool) (now : ℤ) (st : ServiceState)
    (hfail : exOk (renderTemplate rule.message_template data) = false) :
    create_alert insertOk subs now rule data st = st := by
  rw [create_alert]
  cases Data.lookup data "patient_id" with
  | none => rfl
  | some pv =>
    cases hr : renderTemplate rule.message_template data with
    | error e => rfl
    | ok m => rw [hr] at hfail; simp [exOk] at hfail

/-- Witness for `C4_amended_render_failure_drops_alert` at the concrete
rule and event of the counterexample. -/
theorem C4_witness :
    create_alert true [] 0 C4rule [("patient_id", Value.str "P7")] st0 = st0 :=
  C4_amended_render_failure_drops_alert C4rule [("patient_id", Value.str "P7")]
    [] true 0 st0 (by decide)

/-- A qualifying rule off cooldown with a *failing* insert still sets
the cooldown key — and changes nothing else. -/
theorem eval_rule_fire_insert_fail (subs : List Subscriber) (t : ℤ) (R : AlertRule)
    (d : Data) (pid : String) (st : ServiceState)
    (hpid : Data.get d "patient_id" Value.null = Value.str pid)
    (hcond : R.condition d = Except.ok true)
    (hcd : dictGet st.active_alerts (R.rule_id ++ ":" ++ pid) = Option.none) :
    eval_rule false subs t d (Value.str pid) st R =
      { st with active_alerts := dictSet st.active_alerts (R.rule_id ++ ":" ++ pid) t } := by
  simp only [eval_rule, Value.pyStr, hcd, hcond]
  rw [create_alert_insert_fail]
  simp

/-- A rule whose cooldown key is within the window is skipped (`continue`
at line 255), leaving the state unchanged. -/
theorem eval_rule_on_cooldown (insertOk : Bool) (subs : List Subscriber) (t2 : ℤ)
    (R : AlertRule) (d : Data) (pid : String) (st : ServiceState) (l : ℤ)
    (hcd : dictGet st.active_alerts (R.rule_id ++ ":" ++ pid) = some l)
    (hlt : t2 - l < (R.cooldown_minutes : ℤ)) :
    eval_rule insertOk subs t2 d (Value.str pid) st R = st := by
  simp only [eval_rule, Value.pyStr, hcd]
  simp [hlt]

/-- C10: Cooldown marked despite failed creation.  If a rule's predicate
matches while off cooldown but persisting the Alert fails, the cooldown
entry is still refreshed to the evaluation time, no Alert is recorded or
broadcast, and any later qualifying event within the cooldown window is
suppressed entirely. -/
theorem C10_cooldown_marked_despite_failed_creation (R : AlertRule) (pid : String)
    (subs : List Subscriber) (d : Data) (t : ℤ)
    (hpid : Data.get d "patient_id" Value.null = Value.str pid)
    (hpid2 : pid ≠ "")
    (hcond : R.condition d = Except.ok true) :
    (evaluate_alert_rules [R] false subs t d st0).alerts = [] ∧
    (evaluate_alert_rules [R] false subs t d st0).notified = [] ∧
    dictGet (evaluate_alert_rules [R] false subs t d st0).active_alerts
      (R.rule_id ++ ":" ++ pid) = some t ∧
    ∀ t2, t2 - t < (R.cooldown_minutes : ℤ) →
      evaluate_alert_rules [R] false subs t2 d
          (evaluate_alert_rules [R] false subs t d st0) =
        evaluate_alert_rules [R] false subs t d st0 := by
  rw [evaluate_single R false subs t d st0 pid hpid hpid2]
  rw [eval_rule_fire_insert_fail subs t R d pid st0 hpid hcond rfl]
  refine ⟨rfl, rfl, by simp [st0, dictSet, dictGet], ?_⟩
  intro t2 hlt
  rw [evaluate_single R false subs t2 d _ pid hpid hpid2]
  exact eval_rule_on_cooldown false subs t2 R d pid _ t
    (by simp [st0, dictSet, dictGet]) hlt

/-- Witness for `C10_cooldown_marked_despite_failed_creation` at the
high-readmission rule, patient "P1", and times 0 and 1. -/
theorem C10_witness :
    (evaluate_alert_rules [high_risk_readmission_rule] false [] 0 sc1data st0).alerts = [] ∧
    dictGet (evaluate_alert_rules [high_risk_readmission_rule] false [] 0 sc1data
        st0).active_alerts ("high_risk_readmission" ++ ":" ++ "P1") = some 0 ∧
    evaluate_alert_rules [high_risk_readmission_rule] false [] 1 sc1data
        (evaluate_alert_rules [high_risk_readmission_rule] false [] 0 sc1data st0) =
      evaluate_alert_rules [high_risk_readmission_rule] false [] 0 sc1data st0 :=
  have h := C10_cooldown_marked_despite_failed_creation high_risk_readmission_rule
    "P1" [] sc1data 0 (by decide) (by decide) (by decide)
  ⟨h.1, h.2.2.1, h.2.2.2 1 (by decide)⟩

/-- C7: End-to-end scenario 1.  The event
`{patient_id: "P1", risk_type: "readmission", risk_score: 0.85}` against
the built-in high-readmission rule (threshold 0.8) produces exactly one
Alert, of severity "high", whose message contains "P1" and "0.85"; an
identical event 1 minute later changes nothing (120-minute cooldown);
an identical event at minute 121 produces a second Alert. -/
theorem C7_end_to_end_scenario1 :
    ((evaluate_alert_rules [high_risk_readmission_rule] true [] 0 sc1data st0).alerts.map
      (fun r => r.severity)) = ["high"] ∧
    (∀ r ∈ (evaluate_alert_rules [high_risk_readmission_rule] true [] 0 sc1data st0).alerts,
      hasSubChars "P1".data r.message.data = true ∧
      hasSubChars "0.85".data r.message.data = true) ∧
    evaluate_alert_rules [high_risk_readmission_rule] true [] 1 sc1data
        (evaluate_alert_rules [high_risk_readmission_rule] true [] 0 sc1data st0) =
      evaluate_alert_rules [high_risk_readmission_rule] true [] 0 sc1data st0 ∧
    (evaluate_alert_rules [high_risk_readmission_rule] true [] 121 sc1data
      (evaluate_alert_rules [high_risk_readmission_rule] true [] 1 sc1data
        (evaluate_alert_rules [high_risk_readmission_rule] true [] 0 sc1data
          st0))).alerts.length = 2 := by
  decide

/-- C3 counterexample: a store holding one already-Resolved alert (id 1).
`acknowledge(1, "nurse")` does not fail with InvalidTransition — it
succeeds and moves the alert's status from Resolved back to Acknowledged,
because the route's `UPDATE` is guarded only by an existence check. -/
theorem C3_counterexample :
    acknowledge_alert 5 1 "nurse"
        [⟨1, .resolved, Option.none, Option.none, some 0⟩] =
      Except.ok ("Alert acknowledged successfully",
        [⟨1, .acknowledged, some 5, some "nurse", some 0⟩]) := by
  decide

/-- C3 amended: `acknowledge(id, by)` and `resolve(id)` fail with
NotFound (HTTP 404) when no alert with that id exists; but acknowledging
an already-Resolved alert does NOT fail with InvalidTransition — it
succeeds and sets the alert's status to Acknowledged, so an Alert can
transition out of Resolved. -/
theorem C3_amended_ack_resolve (db : AlertsTable) (now : ℤ) (by2 : String)
    (idv : ℕ) (a : DbAlert) (ha : a ∈ db) (haid : a.id = idv)
    (hast : a.status = .resolved) :
    (∀ id2, (∀ b ∈ db, b.id ≠ id2) →
      acknowledge_alert now id2 by2 db = Except.error ⟨404, "Alert not found"⟩ ∧
      resolve_alert now id2 db = Except.error ⟨404, "Alert not found"⟩) ∧
    (∃ db2, acknowledge_alert now idv by2 db =
        Except.ok ("Alert acknowledged successfully", db2) ∧
      ∀ b ∈ db2, b.id = idv → b.status = .acknowledged) := by
  constructor
  · intro id2 habs
    have hany : db.any (fun x => x.id == id2) = false := by
      rw [List.any_eq_false]
      intro x hx
      simp [habs x hx]
    constructor
    · rw [acknowledge_alert, hany]; rfl
    · rw [resolve_alert, hany]; rfl
  · have hany : db.any (fun x => x.id == idv) = true :=
      List.any_eq_true.mpr ⟨a, ha, by simp [haid]⟩
    refine ⟨_, by rw [acknowledge_alert, hany]; rfl, ?_⟩
    intro b hb hbid
    rw [List.mem_map] at hb
    obtain ⟨a2, ha2, rfl⟩ := hb
    by_cases h2 : (a2.id == idv) = true
    · simp [h2]
    · simp [h2] at hbid ⊢
      exact absurd hbid (by simpa using h2)

/-- Witness for `C3_amended_ack_resolve`: on the one-row resolved store,
an unknown id draws a 404 from both routes, and acknowledging the
resolved alert succeeds with status Acknowledged. -/
theorem C3_witness :
    (acknowledge_alert 5 2 "nurse" [⟨1, .resolved, Option.none, Option.none, some 0⟩] =
        Except.error ⟨404, "Alert not found"⟩ ∧
      resolve_alert 5 2 [⟨1, .resolved, Option.none, Option.none, some 0⟩] =
        Except.error ⟨404, "Alert not found"⟩) ∧
    (∃ db2, acknowledge_alert 5 1 "nurse"
          [⟨1, .resolved, Option.none, Option.none, some 0⟩] =
        Except.ok ("Alert acknowledged successfully", db2) ∧
      ∀ b ∈ db2, b.id = 1 → b.status = .acknowledged) :=
  have h := C3_amended_ack_resolve
    [⟨1, .resolved, Option.none, Option.none, some 0⟩] 5 "nurse" 1
    ⟨1, .resolved, Option.none, Option.none, some 0⟩ (by decide) (by decide) (by decide)
  ⟨h.1 2 (by decide), h.2⟩

theorem vital_lab_key_ne (pid : String) :
    ("critical_vitals:" ++ pid) ≠ ("abnormal_labs:" ++ pid) := by
  intro h
  have h2 := congrArg String.length h
  have e1 : "critical_vitals:".length = 16 := rfl
  have e2 : "abnormal_labs:".length = 14 := rfl
  rw [String.length_append, String.length_append, e1, e2] at h2
  omega

/-- Evaluating any abnormal-lab event (the dict shape built by
`_monitor_lab_results`) against the full built-in rule set from a fresh
state fires the `critical_vitals` rule *and* the `abnormal_labs` rule, in
rule order. -/
theorem lab_event_run (pid : String) (tn v u ab ts : Value) (t : ℤ)
    (hpid : pid ≠ "") (hab : ab.truthy = true) :
    ((evaluate_alert_rules default_alert_rules true [] t
        (lab_event (Value.str pid) tn v u ab ts) st0).alerts.map
      (fun r => (r.alert_type, r.severity))) =
    [("vital_critical", "critical"), ("lab_abnormal", "medium")] := by
  have htr : (Data.get (lab_event (Value.str pid) tn v u ab ts) "patient_id"
      Value.null).truthy = true := by
    simp [lab_event, Data.get, Data.lookup, Value.truthy, hpid]
  simp only [evaluate_alert_rules, htr, if_true,
    default_alert_rules, List.foldl_cons, List.foldl_nil]
  rw [show Data.get (lab_event (Value.str pid) tn v u ab ts) "patient_id" Value.null =
    Value.str pid from rfl]
  rw [eval_rule_no_fire true [] t (lab_event (Value.str pid) tn v u ab ts)
    (Value.str pid) st0 high_risk_readmission_rule rfl]
  rw [eval_rule_fire [] t critical_vitals_rule (lab_event (Value.str pid) tn v u ab ts)
    pid st0 _ rfl rfl rfl rfl]
  have hcond3 : abnormal_labs_rule.condition (lab_event (Value.str pid) tn v u ab ts) =
      Except.ok true := by
    have hc : abnormal_labs_rule.condition (lab_event (Value.str pid) tn v u ab ts) =
        Except.ok ab.truthy := rfl
    rw [hc, hab]
  rw [eval_rule_fire [] t abnormal_labs_rule (lab_event (Value.str pid) tn v u ab ts)
    pid _ _ rfl hcond3 rfl
    (by simp [st0, dictSet, dictGet, vital_lab_key_ne pid, critical_vitals_rule,
      abnormal_labs_rule])]
  simp [st0, critical_vitals_rule, abnormal_labs_rule, AlertType.value, RiskLevel.value]

/-- C9: The built-in `critical_vitals` predicate returns `True` for any
event record with no "systolic_bp" key (`data.get("systolic_bp", 0)`
defaults to 0, which satisfies the `< 90` branch); consequently every
abnormal-lab event — which carries only lab fields — also matches the
`critical_vitals` rule and, off cooldown, yields a Critical vital-signs
Alert in addition to the Medium lab Alert. -/
theorem C9_critical_vitals_matches_missing_bp :
    (∀ d : Data, Data.lookup d "systolic_bp" = Option.none →
      critical_vitals_condition d = Except.ok true) ∧
    (∀ (pid : String) (tn v u ab ts : Value) (t : ℤ), pid ≠ "" → ab.truthy = true →
      critical_vitals_rule.condition (lab_event (Value.str pid) tn v u ab ts) =
        Except.ok true ∧
      ((evaluate_alert_rules default_alert_rules true [] t
          (lab_event (Value.str pid) tn v u ab ts) st0).alerts.map
        (fun r => (r.alert_type, r.severity))) =
      [("vital_critical", "critical"), ("lab_abnormal", "medium")]) := by
  constructor
  · intro d h
    have hg : Data.get d "systolic_bp" (Value.num 0) = Value.num 0 := by
      rw [Data.get, h]; rfl
    rw [critical_vitals_condition, hg]
    rfl
  · intro pid tn v u ab ts t hpid hab
    exact ⟨rfl, lab_event_run pid tn v u ab ts t hpid hab⟩

/-- Witness for `C9_critical_vitals_matches_missing_bp`: a record
without "systolic_bp" satisfies the predicate, and a concrete abnormal
glucose lab produces both the Critical vitals alert and the lab alert. -/
theorem C9_witness :
    critical_vitals_condition [("patient_id", Value.str "P2")] = Except.ok true ∧
    ((evaluate_alert_rules default_alert_rules true [] 0
        (lab_event (Value.str "P2") (Value.str "glucose") (Value.num 250)
          (Value.str "mg/dL") (Value.bool true) (Value.num 0)) st0).alerts.map
      (fun r => (r.alert_type, r.severity))) =
    [("vital_critical", "critical"), ("lab_abnormal", "medium")] :=
  ⟨C9_critical_vitals_matches_missing_bp.1 [("patient_id", Value.str "P2")] (by decide),
   (C9_critical_vitals_matches_missing_bp.2 "P2" (Value.str "glucose") (Value.num 250)
     (Value.str "mg/dL") (Value.bool true) (Value.num 0) 0 (by decide) (by decide)).2⟩

/-- C5 counterexample: the abnormal glucose lab event for "P2" — a
lab-category event — is matched against and fires the vital-category
`critical_vitals` rule: not every alert it produces comes from a
lab-category rule, refuting "a rule of a different category is never
matched against the event". -/
theorem C5_counterexample :
    ¬ (∀ r ∈ (evaluate_alert_rules default_alert_rules true [] 0
        (lab_event (Value.str "P2") (Value.str "glucose") (Value.num 250)
          (Value.str "mg/dL") (Value.bool true) (Value.num 0)) st0).alerts,
        r.alert_type = "lab_abnormal") := by
  decide

/-- C5 amended: `_evaluate_alert_rules` iterates over *every* rule in
the rule set for every event, with no category restriction; in
particular any abnormal-lab event also fires the vital-category
`critical_vitals` rule (Critical severity). -/
theorem C5_amended_no_category_restriction (pid : String) (tn v u ab ts : Value)
    (t : ℤ) (hpid : pid ≠ "") (hab : ab.truthy = true) :
    ∃ r ∈ (evaluate_alert_rules default_alert_rules true [] t
        (lab_event (Value.str pid) tn v u ab ts) st0).alerts,
      r.alert_type = "vital_critical" ∧ r.severity = "critical" := by
  have h := lab_event_run pid tn v u ab ts t hpid hab
  have hmem : ("vital_critical", "critical") ∈
      ((evaluate_alert_rules default_alert_rules true [] t
        (lab_event (Value.str pid) tn v u ab ts) st0).alerts.map
      (fun r => (r.alert_type, r.severity))) := by
    rw [h]; simp
  obtain ⟨r, hr, hre⟩ := List.mem_map.mp hmem
  exact ⟨r, hr, congrArg Prod.fst hre, congrArg Prod.snd hre⟩

/-- Witness for `C5_amended_no_category_restriction` at the concrete
abnormal glucose lab event. -/
theorem C5_witness :
    ∃ r ∈ (evaluate_alert_rules default_alert_rules true [] 0
        (lab_event (Value.str "P2") (Value.str "glucose") (Value.num 250)
          (Value.str "mg/dL") (Value.bool true) (Value.num 0)) st0).alerts,
      r.alert_type = "vital_critical" ∧ r.severity = "critical" :=
  C5_amended_no_category_restriction "P2" (Value.str "glucose") (Value.num 250)
    (Value.str "mg/dL") (Value.bool true) (Value.num 0) 0 (by decide) (by decide)

/-- C2: with the `await self._create_alert(...)` suspension point
between the cooldown check and the cooldown mark, and no lock, two
concurrent evaluations of the same qualifying event for
(high_risk_readmission, "P1") can both pass the check under the
interleaving [T1.check, T2.check, T1.create, T1.mark, T2.create,
T2.mark] and create two Alerts in the same window, whereas the
sequential schedule creates exactly one. -/
theorem C2_check_then_mark_race :
    (run_schedule high_risk_readmission_rule true []
        [false, true, false, false, true, true]
        (st0, ⟨.check, 0, sc1data⟩, ⟨.check, 0, sc1data⟩)).1.alerts.length = 2 ∧
    (run_schedule high_risk_readmission_rule true []
        [false, false, false, true, true, true]
        (st0, ⟨.check, 0, sc1data⟩, ⟨.check, 0, sc1data⟩)).1.alerts.length = 1 := by
  decide
